import Mathlib

/-! ethlogfilter: configuration overlay and query construction

A shallow embedding of `cmd/ethlogfilter/main.go`.

Conventions of the embedding:

* a Go `uint64` is a `Nat` (the functions below only copy and compare block
  numbers; the single conversion `int64(b)` is modelled with explicit
  wrap-around in `int64`);
* a Go pointer `*config` is an `Option config`, `none` being `nil`; reading a
  field through a `nil` pointer is the fault `Panic.nilPointerDereference`;
* a Go slice held in a `config` is a `List` (the code only reads `len` and
  copies the slice); a slice *returned* by one of the `choose…` helpers is an
  `Option (List _)`, `none` being the `nil` slice the helper returns literally;
* a Go `*big.Int` is an `Option Int`, `none` being `nil`.
-/

namespace EthLogFilter

/-- Run-time faults of the Go program that the model can reach. -/
inductive Panic where
  | nilPointerDereference
  deriving DecidableEq, Repr

/-- The `config` struct (main.go, lines 19-31). -/
structure config where
  ConfigFile : String
  Verbose : Bool
  OutputFile : String
  NodeURL : String
  Addresses : List String
  Topics : List String
  TxHashes : List String
  FromBlock : Nat
  ToBlock : Nat
  LogBlock : Nat
  deriving DecidableEq, Repr

/-- The value `new(config)` points to: every field at its Go zero value. -/
def config.zero : config :=
  { ConfigFile := "", Verbose := false, OutputFile := "", NodeURL := "",
    Addresses := [], Topics := [], TxHashes := [],
    FromBlock := 0, ToBlock := 0, LogBlock := 0 }

/-- Reading through a Go pointer: a `nil` pointer faults. -/
def deref {α : Type} (p : Option α) : Except Panic α :=
  match p with
  | none => Except.error Panic.nilPointerDereference
  | some v => Except.ok v

/-- `mergeConfig` (main.go, lines 158-216), statement by statement.
The first read of a field of `a` is `a.NodeURL` on line 171; it is where a
`nil` `a` faults. `LogBlock` and `ConfigFile` are never assigned, so they keep
the zero value `new(config)` gave them. -/
def mergeConfig (a b : Option config) : Except Panic (Option config) :=
  match b with
  | none =>
    match a with
    | none => Except.ok none
    | some _ => Except.ok a
  | some bv => do
    let out := config.zero
    let out := { out with Verbose := bv.Verbose }
    let av ← deref a
    let out :=
      if av.NodeURL.length == 0 then
        if bv.NodeURL.length != 0 then { out with NodeURL := bv.NodeURL } else out
      else
        { out with NodeURL := av.NodeURL }
    let out :=
      if bv.Addresses.length != 0 then { out with Addresses := bv.Addresses }
      else { out with Addresses := av.Addresses }
    let out :=
      if bv.Topics.length > 0 then { out with Topics := bv.Topics }
      else { out with Topics := av.Topics }
    let out :=
      if bv.TxHashes.length != 0 then { out with TxHashes := bv.TxHashes }
      else { out with TxHashes := av.TxHashes }
    let out :=
      if bv.FromBlock != 0 then { out with FromBlock := bv.FromBlock }
      else { out with FromBlock := av.FromBlock }
    let out :=
      if bv.ToBlock != 0 then { out with ToBlock := bv.ToBlock }
      else { out with ToBlock := av.ToBlock }
    let out :=
      if bv.OutputFile != "" then { out with OutputFile := bv.OutputFile }
      else { out with OutputFile := bv.OutputFile }
    return some out

/-- `chooseBlock` (main.go, lines 123-128). -/
def chooseBlock (fromBlock toBlock logBlock : Nat) : Nat × Nat :=
  if logBlock == 0 then
    (fromBlock, toBlock)
  else
    (logBlock, logBlock)

/-- The Go conversion `int64(b)` of a `uint64`: the same 64 bits read as a
two's-complement signed number. -/
def int64 (b : Nat) : Int :=
  if b % 2 ^ 64 < 2 ^ 63 then ((b % 2 ^ 64 : Nat) : Int)
  else ((b % 2 ^ 64 : Nat) : Int) - 2 ^ 64

/-- `chooseBlockNumber` (main.go, lines 131-137); `big.NewInt(x)` is the
integer `x`. -/
def chooseBlockNumber (b : Nat) : Option Int :=
  if b == 0 then
    none
  else
    some (int64 b)

/-- `chooseAddresses` (main.go, lines 139-145). -/
def chooseAddresses {A : Type} (addresses : List A) : Option (List A) :=
  if addresses.length == 0 then
    none
  else
    some addresses

/-- `chooseTopics` (main.go, lines 147-153). -/
def chooseTopics {H : Type} (topics : List H) : Option (List (List H)) :=
  if topics.length == 0 then
    none
  else
    some [topics]

/-- The fields of `ethereum.FilterQuery` that `main` sets. -/
structure FilterQuery (A H : Type) where
  FromBlock : Option Int
  ToBlock : Option Int
  Addresses : Option (List A)
  Topics : Option (List (List H))

/-- The `for … range` loops of main.go, lines 63-73: decode every string and
append it to an initially `nil` slice. -/
def decodeAll {α : Type} (decode : String → α) (strs : List String) : List α :=
  strs.foldl (fun acc s => acc ++ [decode s]) []

/-- The filter query `main` hands to `client.FilterLogs` (main.go, lines
63-73 and 83-90) for the effective config `conf`. The decoders
`common.HexToAddress` and `common.HexToHash` are library code and are taken as
parameters. -/
def mainFilterQuery {A H : Type} (hexToAddress : String → A) (hexToHash : String → H)
    (conf : config) : FilterQuery A H :=
  let addresses := decodeAll hexToAddress conf.Addresses
  let topics := decodeAll hexToHash conf.Topics
  let (fromBlock, toBlock) := chooseBlock conf.FromBlock conf.ToBlock conf.LogBlock
  { FromBlock := chooseBlockNumber fromBlock
    ToBlock := chooseBlockNumber toBlock
    Addresses := chooseAddresses addresses
    Topics := chooseTopics topics }

/-- Modelled from the spec: `gslutils.Contains` (library `artnoi43/gsl`, not
part of the sources) - membership of `item` in `arr` by `==`, scanning from
the front. -/
def Contains (arr : List String) (item : String) : Bool :=
  match arr with
  | [] => false
  | elem :: rest => if elem == item then true else Contains rest item

/-- Modelled from the spec: `gslutils.CollectPointersIf` (library
`artnoi43/gsl`, not part of the sources) - walks the slice front to back and
appends a pointer to every element the predicate accepts. A pointer is
represented by the element it points to. -/
def CollectPointersIf {L : Type} (arr : List L) (filterFunc : L → Bool) : List L :=
  arr.foldl (fun out elem => if filterFunc elem then out ++ [elem] else out) []

/-- Modelled from the spec: `gslutils.CollectPointers` (library
`artnoi43/gsl`, not part of the sources) - a pointer to every element, in
order. -/
def CollectPointers {L : Type} (arr : List L) : List L :=
  arr.foldl (fun out elem => out ++ [elem]) []

/-- The tx-hash post-filter of `main` (main.go, lines 94-101). `txHashString`
stands for `log.TxHash.String()`, the library rendering of a log's
transaction hash. -/
def mainTargetLogs {L : Type} (txHashString : L → String) (TxHashes : List String)
    (logs : List L) : List L :=
  if TxHashes.length > 0 then
    CollectPointersIf logs (fun log => Contains TxHashes (txHashString log))
  else
    CollectPointers logs

/-- What the program does outside itself, as far as `main` is concerned: the
results of the library and operating-system calls it makes. A Go `error` is an
`Option String` (`none` is `nil`, `some e` carries `err.Error()`); a call that
returns a value or an error is an `Except String _`. Byte slices are `String`s.
`FilterLogs` returns both of its results, as in Go. -/
structure Env (A H L : Type) where
  UserHomeDir : Except String String
  ReadFileYAMLPointer : String → Except String (Option config)
  Dial : String → Option String
  HexToAddress : String → A
  HexToHash : String → H
  FilterLogs : FilterQuery A H → List L × Option String
  txHashString : L → String
  Marshal : List L → Except String String
  WriteFile : String → String → Option String

/-- The steps of a run of `main` that the claims speak about, recorded in
program order. -/
inductive Event (A H L : Type) where
  -- lines 76-78: the three verbose lines
  | verbose (addresses : List A) (topics : List H) (txHashes : List String)
  -- line 85: the call of client.FilterLogs with this query
  | filterLogs (query : FilterQuery A H)
  -- lines 94-101: the tx-hash post-filter has been evaluated, with this result
  | postFilter (targetLogs : List L)
  -- line 113: the call os.WriteFile(path, data, os.ModePerm)
  | writeFile (path : String) (data : String)
  -- lines 114, 115, 119: bytes written to standard output
  | stdout (data : String)
  -- an explicit panic(msg)
  | panicked (msg : String)
  -- a run-time fault
  | fault (p : Panic)

/-- The emitter of `main` (main.go, lines 107-119), for the effective
`OutputFile` and the retained logs. -/
def mainEmit {A H L : Type} (env : Env A H L) (OutputFile : String)
    (targetLogs : List L) : List (Event A H L) :=
  match env.Marshal targetLogs with
  | Except.error e => [Event.panicked ("failed to marshal event logs to json: " ++ e)]
  | Except.ok logsJson =>
    let written : List (Event A H L) :=
      if OutputFile.length != 0 then
        Event.writeFile OutputFile logsJson ::
          (match env.WriteFile OutputFile logsJson with
           | some e =>
             [Event.stdout ("failed to write JSON output to file " ++ OutputFile ++ "\n"),
              Event.stdout (e ++ "\n")]
           | none => [])
      else
        []
    written ++ [Event.stdout (logsJson ++ "\n")]

/-- The part of `main` after the merge (main.go, lines 58-120), for the
effective config `fileConf`: dial, decode, build the query, fetch, post-filter,
test the fetch error, emit. -/
def mainFetchAndEmit {A H L : Type} (env : Env A H L) (fileConf : config) :
    List (Event A H L) :=
  match env.Dial fileConf.NodeURL with
  | some e => [Event.panicked ("new client failed: " ++ e)]
  | none =>
    let addresses := decodeAll env.HexToAddress fileConf.Addresses
    let topics := decodeAll env.HexToHash fileConf.Topics
    let shown : List (Event A H L) :=
      if fileConf.Verbose then [Event.verbose addresses topics fileConf.TxHashes] else []
    let query := mainFilterQuery env.HexToAddress env.HexToHash fileConf
    let (logs, err) := env.FilterLogs query
    let targetLogs := mainTargetLogs env.txHashString fileConf.TxHashes logs
    let done := shown ++ [Event.filterLogs query, Event.postFilter targetLogs]
    match err with
    | some e => done ++ [Event.panicked ("failed to filterLogs: " ++ e)]
    | none => done ++ mainEmit env fileConf.OutputFile targetLogs

/-- `main` (main.go, lines 33-120). `argConf` is what `arg.MustParse` filled
in; it is never `nil`. -/
def main {A H L : Type} (env : Env A H L) (argConf : config) : List (Event A H L) :=
  let located : Except String String :=
    if argConf.ConfigFile.length > 0 then
      Except.ok argConf.ConfigFile
    else
      match env.UserHomeDir with
      | Except.error e =>
        Except.error ("failed to get config location in user\x27s homedir: " ++ e)
      | Except.ok home => Except.ok (home ++ "/.config/ethlogfilter/config.yaml")
  match located with
  | Except.error msg => [Event.panicked msg]
  | Except.ok configFile =>
    match env.ReadFileYAMLPointer configFile with
    | Except.error e => [Event.panicked ("read config failed: " ++ e)]
    | Except.ok fileConf =>
      match mergeConfig fileConf (some argConf) with
      | Except.error p => [Event.fault p]
      | Except.ok none => [Event.fault Panic.nilPointerDereference]
      | Except.ok (some merged) => mainFetchAndEmit env merged

/-- The data of every `os.WriteFile` call on `path`, in program order. -/
def fileWrites {A H L : Type} (path : String) (trace : List (Event A H L)) : List String :=
  trace.filterMap (fun ev =>
    match ev with
    | Event.writeFile p data => if p = path then some data else none
    | _ => none)

/-- Everything written to standard output through `Event.stdout`, in program
order. -/
def stdoutWrites {A H L : Type} (trace : List (Event A H L)) : List String :=
  trace.filterMap (fun ev =>
    match ev with
    | Event.stdout data => some data
    | _ => none)

/-- An environment for concrete runs: the home directory is `/home/u`, the
config file decodes to `fileConf`, dialling succeeds, hex strings decode to
themselves, a log is a pair of an index and its transaction-hash string,
`FilterLogs` returns `fetched`, marshalling yields `json`, and writing the
output file yields `writeErr`. -/
def Env.sample (fileConf : Option config) (fetched : List (Nat × String) × Option String)
    (json : Except String String) (writeErr : Option String) :
    Env String String (Nat × String) :=
  { UserHomeDir := Except.ok "/home/u"
    ReadFileYAMLPointer := fun _ => Except.ok fileConf
    Dial := fun _ => none
    HexToAddress := fun s => s
    HexToHash := fun s => s
    FilterLogs := fun _ => fetched
    txHashString := Prod.snd
    Marshal := fun _ => json
    WriteFile := fun _ _ => writeErr }

/-! ## Helper lemmas -/

theorem string_length_eq_zero_iff (s : String) : s.length = 0 ↔ s = "" := by
  cases s with
  | mk data =>
    constructor
    · intro h
      have : data = [] := List.length_eq_zero.mp h
      subst this
      rfl
    · intro h
      rw [h]
      rfl

/-- What `mergeConfig` returns when both pointers are present. -/
theorem mergeConfig_some_some (a b : config) :
    mergeConfig (some a) (some b) = Except.ok (some
      { ConfigFile := ""
        Verbose := b.Verbose
        OutputFile := b.OutputFile
        NodeURL := if a.NodeURL = "" then b.NodeURL else a.NodeURL
        Addresses := if b.Addresses = [] then a.Addresses else b.Addresses
        Topics := if b.Topics = [] then a.Topics else b.Topics
        TxHashes := if b.TxHashes = [] then a.TxHashes else b.TxHashes
        FromBlock := if b.FromBlock = 0 then a.FromBlock else b.FromBlock
        ToBlock := if b.ToBlock = 0 then a.ToBlock else b.ToBlock
        LogBlock := 0 }) := by
  by_cases h1 : a.NodeURL = "" <;> by_cases h1b : b.NodeURL = "" <;>
  by_cases h2 : b.Addresses = [] <;> by_cases h3 : b.Topics = [] <;>
  by_cases h4 : b.TxHashes = [] <;> by_cases h5 : b.FromBlock = 0 <;>
  by_cases h6 : b.ToBlock = 0 <;>
  simp [mergeConfig, deref, config.zero, bind, Except.bind, pure, Except.pure,
    string_length_eq_zero_iff, List.length_pos, h1, h1b, h2, h3, h4, h5, h6]

/-- The scan of `Contains` decides list membership. -/
theorem Contains_iff_mem (arr : List String) (item : String) :
    Contains arr item = true ↔ item ∈ arr := by
  induction arr with
  | nil => simp [Contains]
  | cons elem rest ih =>
    by_cases h : elem = item
    · simp [Contains, h]
    · have h2 : ¬ item = elem := fun e => h e.symm
      simp [Contains, h, h2, ih]

/-- The appending loop of `CollectPointersIf`, started from any accumulator. -/
theorem collectLoop_eq_filter {L : Type} (filterFunc : L → Bool) (arr acc : List L) :
    arr.foldl (fun out elem => if filterFunc elem then out ++ [elem] else out) acc
      = acc ++ arr.filter filterFunc := by
  induction arr generalizing acc with
  | nil => simp
  | cons x xs ih =>
    by_cases hx : filterFunc x = true
    · simp [List.foldl_cons, ih, List.filter_cons, hx]
    · simp [List.foldl_cons, ih, List.filter_cons, hx]

theorem CollectPointersIf_eq_filter {L : Type} (arr : List L) (filterFunc : L → Bool) :
    CollectPointersIf arr filterFunc = arr.filter filterFunc := by
  simp [CollectPointersIf, collectLoop_eq_filter]

theorem CollectPointers_eq {L : Type} (arr : List L) : CollectPointers arr = arr := by
  have h := collectLoop_eq_filter (fun _ : L => true) arr []
  simpa [CollectPointers] using h

theorem int64_ne_zero {b : Nat} (h0 : b ≠ 0) (hb : b < 2 ^ 64) : int64 b ≠ 0 := by
  unfold int64
  rw [Nat.mod_eq_of_lt hb]
  split_ifs with h
  · omega
  · omega

/-! ## The claims -/

/-- C1 (code defect): on the spec's scenario S3 - file `node_url` is
`http://f:8545`, CLI `node_url` is `http://c:8545` - `mergeConfig` returns the
FILE value: lines 171-177 test `a.NodeURL` first and keep it whenever it is
non-empty, so the CLI value never overrides a non-empty file value. -/
theorem mergeConfig_NodeURL_keeps_file_value :
    ∃ out : config,
      mergeConfig (some { config.zero with NodeURL := "http://f:8545", FromBlock := 10 })
        (some { config.zero with NodeURL := "http://c:8545" }) = Except.ok (some out)
      ∧ out.NodeURL = "http://f:8545" ∧ out.NodeURL ≠ "http://c:8545"
      ∧ out.FromBlock = 10 :=
  ⟨{ config.zero with NodeURL := "http://f:8545", FromBlock := 10 }, rfl, rfl, by decide, rfl⟩

/-- C2 (code defect): `mergeConfig` never assigns `out.LogBlock`; with file
`LogBlock = 7` and CLI `LogBlock = 150` the merged `LogBlock` is 0, neither the
CLI value nor the file value. -/
theorem mergeConfig_LogBlock_dropped :
    ∃ out : config,
      mergeConfig (some { config.zero with LogBlock := 7 })
        (some { config.zero with LogBlock := 150 }) = Except.ok (some out)
      ∧ out.LogBlock = 0 :=
  ⟨config.zero, rfl, rfl⟩

/-- C3: with both configs present `mergeConfig` returns a config whose
`FromBlock` is the CLI value when that is non-zero and the file value otherwise,
and likewise for `ToBlock`. -/
theorem mergeConfig_FromBlock_ToBlock (a b : config) :
    ∃ out : config, mergeConfig (some a) (some b) = Except.ok (some out)
      ∧ out.FromBlock = (if b.FromBlock ≠ 0 then b.FromBlock else a.FromBlock)
      ∧ out.ToBlock = (if b.ToBlock ≠ 0 then b.ToBlock else a.ToBlock) := by
  refine ⟨_, mergeConfig_some_some a b, ?_, ?_⟩
  · by_cases h : b.FromBlock = 0 <;> simp [h]
  · by_cases h : b.ToBlock = 0 <;> simp [h]

/-- C4: with both configs present, each of `Addresses`, `Topics`, `TxHashes`
of the merged config is the CLI list itself when that list is non-empty, and
the file list itself when the CLI list is empty; no element-wise merge. -/
theorem mergeConfig_lists (a b : config) :
    ∃ out : config, mergeConfig (some a) (some b) = Except.ok (some out)
      ∧ out.Addresses = (if b.Addresses ≠ [] then b.Addresses else a.Addresses)
      ∧ out.Topics = (if b.Topics ≠ [] then b.Topics else a.Topics)
      ∧ out.TxHashes = (if b.TxHashes ≠ [] then b.TxHashes else a.TxHashes) := by
  refine ⟨_, mergeConfig_some_some a b, ?_, ?_, ?_⟩
  · by_cases h : b.Addresses = [] <;> simp [h]
  · by_cases h : b.Topics = [] <;> simp [h]
  · by_cases h : b.TxHashes = [] <;> simp [h]

/-- C5: for a non-zero `logBlock` k, `chooseBlock` returns (k, k) whatever
`fromBlock` and `toBlock` are; for `logBlock = 0` it returns
(`fromBlock`, `toBlock`) unchanged. -/
theorem chooseBlock_spec (fromBlock toBlock k : Nat) (hk : k ≠ 0) :
    chooseBlock fromBlock toBlock k = (k, k)
      ∧ chooseBlock fromBlock toBlock 0 = (fromBlock, toBlock) := by
  simp [chooseBlock, hk]

/-- C5 at the spec's scenario S2: `chooseBlock(100, 200, 150) = (150, 150)`. -/
theorem chooseBlock_spec_witness :
    (150 : Nat) ≠ 0 ∧ chooseBlock 100 200 150 = (150, 150)
      ∧ chooseBlock 100 200 0 = (100, 200) :=
  ⟨by decide, chooseBlock_spec 100 200 150 (by decide)⟩

/-- C6: `chooseBlockNumber b` is `nil` exactly when `b` is 0 - so
`chooseBlockNumber 0` is `nil`, not the number 0, and every non-zero `b`
gives a present value - and when `FromBlock`, `ToBlock` and `LogBlock` of the
effective config are all 0 the query `main` builds has both bounds absent. -/
theorem chooseBlockNumber_nil_iff_zero {A H : Type} (hexToAddress : String → A)
    (hexToHash : String → H) (b : Nat) (conf : config) :
    (chooseBlockNumber b = none ↔ b = 0)
      ∧ chooseBlockNumber 0 = none
      ∧ chooseBlockNumber 0 ≠ some 0
      ∧ (b ≠ 0 → ∃ v : Int, chooseBlockNumber b = some v)
      ∧ (conf.FromBlock = 0 → conf.ToBlock = 0 → conf.LogBlock = 0 →
          (mainFilterQuery hexToAddress hexToHash conf).FromBlock = none
          ∧ (mainFilterQuery hexToAddress hexToHash conf).ToBlock = none) := by
  refine ⟨?_, ?_, ?_, ?_, ?_⟩
  · by_cases h : b = 0 <;> simp [chooseBlockNumber, h]
  · simp [chooseBlockNumber]
  · simp [chooseBlockNumber]
  · intro h
    exact ⟨int64 b, by simp [chooseBlockNumber, h]⟩
  · intro hf ht hl
    simp [mainFilterQuery, chooseBlock, chooseBlockNumber, hf, ht, hl]

/-- C6 at concrete inputs: block 5 gives a present bound, and the all-zero
config gives a query with both bounds absent. -/
theorem chooseBlockNumber_nil_iff_zero_witness :
    (5 : Nat) ≠ 0 ∧ (∃ v : Int, chooseBlockNumber 5 = some v)
      ∧ config.zero.FromBlock = 0 ∧ config.zero.ToBlock = 0 ∧ config.zero.LogBlock = 0
      ∧ (mainFilterQuery id id config.zero).FromBlock = none
      ∧ (mainFilterQuery id id config.zero).ToBlock = none :=
  ⟨by decide,
    (chooseBlockNumber_nil_iff_zero id id 5 config.zero).2.2.2.1 (by decide),
    rfl, rfl, rfl,
    (chooseBlockNumber_nil_iff_zero id id 5 config.zero).2.2.2.2 rfl rfl rfl⟩

/-- C7: for a non-empty topic list `ts`, `chooseTopics ts` is present and is a
list with exactly one inner list, at position 0, equal to `ts` (so of the same
length, same elements, same order). -/
theorem chooseTopics_nonempty {H : Type} (ts : List H) (hne : ts ≠ []) :
    ∃ tss : List (List H), chooseTopics ts = some tss
      ∧ tss.length = 1 ∧ tss[0]? = some ts
      ∧ ∀ inner ∈ tss, inner = ts ∧ inner.length = ts.length := by
  refine ⟨[ts], ?_, rfl, rfl, ?_⟩
  · simp [chooseTopics, hne]
  · intro inner hin
    have : inner = ts := by simpa using hin
    subst this
    exact ⟨rfl, rfl⟩

/-- C7 at a concrete three-element topic list. -/
theorem chooseTopics_nonempty_witness :
    ["t1", "t2", "t3"] ≠ ([] : List String)
      ∧ ∃ tss : List (List String), chooseTopics ["t1", "t2", "t3"] = some tss
        ∧ tss.length = 1 ∧ tss[0]? = some ["t1", "t2", "t3"]
        ∧ ∀ inner ∈ tss, inner = ["t1", "t2", "t3"]
            ∧ inner.length = ["t1", "t2", "t3"].length :=
  ⟨by simp, chooseTopics_nonempty ["t1", "t2", "t3"] (by simp)⟩

/-- C8: `chooseAddresses` of an empty list is `nil`, `chooseTopics` of an
empty list is `nil` (not a list holding one empty inner list), and
`chooseAddresses` returns every non-empty list unchanged. -/
theorem chooseAddresses_chooseTopics_empty {A H : Type} (addresses : List A)
    (hne : addresses ≠ []) :
    chooseAddresses ([] : List A) = none
      ∧ chooseTopics ([] : List H) = none
      ∧ chooseTopics ([] : List H) ≠ some [[]]
      ∧ chooseAddresses addresses = some addresses := by
  simp [chooseAddresses, chooseTopics, hne]

/-- C8 at a concrete two-element address list. -/
theorem chooseAddresses_chooseTopics_empty_witness :
    ["a1", "a2"] ≠ ([] : List String)
      ∧ chooseAddresses ([] : List String) = none
      ∧ chooseTopics ([] : List String) = none
      ∧ chooseTopics ([] : List String) ≠ some [[]]
      ∧ chooseAddresses ["a1", "a2"] = some ["a1", "a2"] :=
  ⟨by simp, chooseAddresses_chooseTopics_empty ["a1", "a2"] (by simp)⟩

/-- C9: when `TxHashes` is non-empty the logs `main` retains are exactly the
fetched logs, in their original order, whose transaction-hash string occurs in
`TxHashes` (string equality), so every retained log has its hash string in
`TxHashes`; when `TxHashes` is empty the retained logs are the fetched list. -/
theorem mainTargetLogs_spec {L : Type} (txHashString : L → String)
    (TxHashes : List String) (logs : List L) :
    (TxHashes ≠ [] →
        mainTargetLogs txHashString TxHashes logs
            = logs.filter (fun log => decide (txHashString log ∈ TxHashes))
          ∧ ∀ log ∈ mainTargetLogs txHashString TxHashes logs,
              log ∈ logs ∧ txHashString log ∈ TxHashes)
      ∧ (TxHashes = [] → mainTargetLogs txHashString TxHashes logs = logs) := by
  have hfun : (fun log => Contains TxHashes (txHashString log))
      = (fun log => decide (txHashString log ∈ TxHashes)) := by
    funext log
    by_cases h : txHashString log ∈ TxHashes
    · simp [h, (Contains_iff_mem TxHashes (txHashString log)).mpr h]
    · have hc : Contains TxHashes (txHashString log) = false := by
        cases hC : Contains TxHashes (txHashString log) with
        | false => rfl
        | true => exact absurd ((Contains_iff_mem _ _).mp hC) h
      simp [h, hc]
  constructor
  · intro hne
    have hpos : TxHashes.length > 0 := List.length_pos.mpr hne
    have heq : mainTargetLogs txHashString TxHashes logs
        = logs.filter (fun log => decide (txHashString log ∈ TxHashes)) := by
      simp only [mainTargetLogs, hpos, if_true, CollectPointersIf_eq_filter, hfun]
    refine ⟨heq, ?_⟩
    intro log hlog
    rw [heq] at hlog
    have := List.mem_filter.mp hlog
    exact ⟨this.1, by simpa using this.2⟩
  · intro he
    subst he
    simp [mainTargetLogs, CollectPointers_eq]

/-- C9 at the spec's scenario S4 and at a case mismatch: of the four fetched
logs only the two whose hash string is literally `0xh2` are retained, in
order; the differently cased `0xH2` is not. -/
theorem mainTargetLogs_spec_witness :
    ["0xh2"] ≠ ([] : List String)
      ∧ mainTargetLogs Prod.snd ["0xh2"] [(1, "0xh1"), (2, "0xh2"), (3, "0xH2"), (4, "0xh2")]
          = [(2, "0xh2"), (4, "0xh2")]
      ∧ mainTargetLogs Prod.snd [] [(1, "0xh1"), (2, "0xh2")] = [(1, "0xh1"), (2, "0xh2")] :=
  ⟨by simp,
    ((mainTargetLogs_spec Prod.snd ["0xh2"]
      [(1, "0xh1"), (2, "0xh2"), (3, "0xH2"), (4, "0xh2")]).1 (by simp)).1.trans (by decide),
    (mainTargetLogs_spec Prod.snd [] [(1, "0xh1"), (2, "0xh2")]).2 rfl⟩

/-- C10: with both configs present the merged `Verbose` is the CLI `Verbose`,
whatever the file config holds. -/
theorem mergeConfig_Verbose (a b : config) :
    ∃ out : config, mergeConfig (some a) (some b) = Except.ok (some out)
      ∧ out.Verbose = b.Verbose :=
  ⟨_, mergeConfig_some_some a b, rfl⟩

/-- C11 (code defect): `mergeConfig` does not tolerate every absent input.
With `a = nil` and any present `b` it faults with a nil-pointer dereference at
`a.NodeURL` (line 171): the guard on lines 159-164 only handles `b = nil`.
The two cases with `b = nil` do return without a fault. -/
theorem mergeConfig_nil_file_faults (a b : config) :
    mergeConfig none (some b) = Except.error Panic.nilPointerDereference
      ∧ mergeConfig (some a) none = Except.ok (some a)
      ∧ mergeConfig none none = Except.ok none :=
  ⟨rfl, rfl, rfl⟩

/-- C12: with both configs present the merged `OutputFile` is the CLI
`OutputFile`, whatever the file config holds. -/
theorem mergeConfig_OutputFile (a b : config) :
    ∃ out : config, mergeConfig (some a) (some b) = Except.ok (some out)
      ∧ out.OutputFile = b.OutputFile :=
  ⟨_, mergeConfig_some_some a b, rfl⟩

/-- C13 (code defect): end to end, with file `from_block = 100`,
`to_block = 200` and CLI `--block 150`, the query `main` builds from the
merged config has bounds 100 and 200, not 150 and 150: `mergeConfig` has
dropped `LogBlock`, so `chooseBlock` sees `logBlock = 0`. The last conjunct
is the whole run of `main` on that input. -/
theorem merged_LogBlock_query_not_single_block :
    ∃ out : config,
      mergeConfig (some { config.zero with FromBlock := 100, ToBlock := 200 })
        (some { config.zero with LogBlock := 150 }) = Except.ok (some out)
      ∧ (mainFilterQuery (fun s => s) (fun s => s) out).FromBlock = some 100
      ∧ (mainFilterQuery (fun s => s) (fun s => s) out).ToBlock = some 200
      ∧ (mainFilterQuery (fun s => s) (fun s => s) out).FromBlock ≠ some 150
      ∧ (mainFilterQuery (fun s => s) (fun s => s) out).ToBlock ≠ some 150
      ∧ main (Env.sample (some { config.zero with FromBlock := 100, ToBlock := 200 })
            ([], none) (Except.ok "[]") none) { config.zero with LogBlock := 150 }
          = [Event.filterLogs
                { FromBlock := some 100, ToBlock := some 200, Addresses := none,
                  Topics := none },
              Event.postFilter [],
              Event.stdout "[]\n"] :=
  ⟨{ config.zero with FromBlock := 100, ToBlock := 200 }, rfl, by decide, by decide,
    by decide, by decide, rfl⟩

/-- C14, as the claim states it, fails: `mergeConfig(nil, nil)` is not a
pointer to an all-zero `config`. -/
theorem mergeConfig_nil_nil_not_zero_config :
    mergeConfig none none ≠ Except.ok (some config.zero) := by
  intro h
  have h2 : (Except.ok none : Except Panic (Option config)) = Except.ok (some config.zero) := h
  cases h2

/-- C14 (amended): when both inputs are absent `mergeConfig(nil, nil)`
returns without a fault and its result is `nil` (lines 159-162). -/
theorem mergeConfig_nil_nil :
    mergeConfig none none = Except.ok none :=
  rfl

/-- C15, as the claim states it, fails: with the output file `/tmp/out.json`,
a JSON document `[]` and a successful write, the file receives `[]` and
standard output receives `[]` followed by a newline. -/
theorem mainEmit_file_differs_from_stdout :
    fileWrites "/tmp/out.json"
        (mainEmit (Env.sample none ([], none) (Except.ok "[]") none) "/tmp/out.json" [])
      = ["[]"]
    ∧ stdoutWrites
        (mainEmit (Env.sample none ([], none) (Except.ok "[]") none) "/tmp/out.json" [])
      = ["[]\n"]
    ∧ fileWrites "/tmp/out.json"
        (mainEmit (Env.sample none ([], none) (Except.ok "[]") none) "/tmp/out.json" [])
      ≠ stdoutWrites
        (mainEmit (Env.sample none ([], none) (Except.ok "[]") none) "/tmp/out.json" []) := by
  decide

/-- C15 (amended): for every retained log set that marshals to `logsJson` and
every non-empty `OutputFile` whose write succeeds, the emitter makes exactly
one write to the file, of `logsJson` itself, and exactly one write to standard
output, of `logsJson` followed by one newline; the two byte strings differ
only by that trailing newline. -/
theorem mainEmit_file_and_stdout {A H L : Type} (env : Env A H L) (OutputFile : String)
    (targetLogs : List L) (logsJson : String)
    (hpath : OutputFile ≠ "")
    (hjson : env.Marshal targetLogs = Except.ok logsJson)
    (hwrite : env.WriteFile OutputFile logsJson = none) :
    mainEmit env OutputFile targetLogs
        = [Event.writeFile OutputFile logsJson, Event.stdout (logsJson ++ "\n")]
      ∧ fileWrites OutputFile (mainEmit env OutputFile targetLogs) = [logsJson]
      ∧ stdoutWrites (mainEmit env OutputFile targetLogs) = [logsJson ++ "\n"]
      ∧ logsJson ++ "\n" ≠ logsJson := by
  have hlen : ¬ OutputFile.length = 0 := fun h => hpath ((string_length_eq_zero_iff _).mp h)
  have hrun : mainEmit env OutputFile targetLogs
      = [Event.writeFile OutputFile logsJson, Event.stdout (logsJson ++ "\n")] := by
    simp [mainEmit, hjson, hwrite, hlen]
  refine ⟨hrun, ?_, ?_, ?_⟩
  · rw [hrun]
    simp [fileWrites]
  · rw [hrun]
    simp [stdoutWrites]
  · intro h
    have hl := congrArg String.length h
    have hn : "\n".length = 1 := rfl
    rw [String.length_append, hn] at hl
    omega

/-- C15 (amended) at a concrete run: two logs marshalled to a short document,
written to `/tmp/out.json`. -/
theorem mainEmit_file_and_stdout_witness :
    "/tmp/out.json" ≠ ""
      ∧ fileWrites "/tmp/out.json"
          (mainEmit (Env.sample none ([], none) (Except.ok "[1,2]") none) "/tmp/out.json"
            [(1, "0xh1"), (2, "0xh2")])
        = ["[1,2]"]
      ∧ stdoutWrites
          (mainEmit (Env.sample none ([], none) (Except.ok "[1,2]") none) "/tmp/out.json"
            [(1, "0xh1"), (2, "0xh2")])
        = ["[1,2]" ++ "\n"] :=
  ⟨by decide,
    (mainEmit_file_and_stdout (Env.sample none ([], none) (Except.ok "[1,2]") none)
      "/tmp/out.json" [(1, "0xh1"), (2, "0xh2")] "[1,2]" (by decide) rfl rfl).2.1,
    (mainEmit_file_and_stdout (Env.sample none ([], none) (Except.ok "[1,2]") none)
      "/tmp/out.json" [(1, "0xh1"), (2, "0xh2")] "[1,2]" (by decide) rfl rfl).2.2.1⟩

/-- C16 (code defect): `mergeConfig` never assigns `out.ConfigFile`; with CLI
`ConfigFile = /etc/elf.yaml` the merged `ConfigFile` is the empty string. -/
theorem mergeConfig_ConfigFile_dropped :
    ∃ out : config,
      mergeConfig (some config.zero)
        (some { config.zero with ConfigFile := "/etc/elf.yaml" }) = Except.ok (some out)
      ∧ out.ConfigFile = "" ∧ out.ConfigFile ≠ "/etc/elf.yaml" :=
  ⟨config.zero, rfl, rfl, by decide⟩

/-- C17 (code defect): for the block number 2^63 (a valid `uint64`)
`chooseBlockNumber` yields the negative integer -2^63, and for 2^64 - 1 it
yields -1: `int64(b)` wraps before `big.NewInt` sees the value. -/
theorem chooseBlockNumber_wraps_negative :
    chooseBlockNumber (2 ^ 63) = some (-(2 ^ 63))
      ∧ chooseBlockNumber (2 ^ 63) ≠ some (2 ^ 63)
      ∧ chooseBlockNumber (2 ^ 64 - 1) = some (-1)
      ∧ chooseBlockNumber (2 ^ 64 - 1) ≠ some (2 ^ 64 - 1) := by
  decide

/-- C18 (code defect): when `FilterLogs` returns the error `boom`, the run
evaluates the tx-hash post-filter (lines 94-101) on the returned logs first
and only then tests the error (lines 103-105) and panics. The run is fatal
with the fetch error and writes nothing to standard output or to a file. -/
theorem mainFetchAndEmit_postFilter_before_error_check :
    mainFetchAndEmit (Env.sample none ([], some "boom") (Except.ok "[]") none)
        { config.zero with NodeURL := "http://n:8545", TxHashes := ["0xh2"],
                           OutputFile := "/tmp/out.json" }
      = [Event.filterLogs
            { FromBlock := none, ToBlock := none, Addresses := none, Topics := none },
          Event.postFilter [],
          Event.panicked "failed to filterLogs: boom"] :=
  rfl

end EthLogFilter
